import Mathlib

/-!
Verification development for `custom_components/tech/sensor.py` of the
tech-controllers integration.

The Python module is embedded shallowly:

* A `Device` record models one zone record as returned by the remote API:
  `device["description"]["name"]`, `device["zone"]["id"]`,
  `device["zone"]["batteryLevel"]`, `device["zone"]["currentTemperature"]`,
  `device["zone"]["humidity"]`.  Optional JSON fields (those the code
  compares with `None`, or whose absence the spec calls a normal state)
  are `Option` valued.
* Each of the three sensor classes becomes a structure holding exactly the
  mutable fields the Python objects hold (`_udid`, `_id`, `_unique_id`,
  `_name`, `_attr_native_value`); mutation is modelled by returning the
  updated record.  The `_api` reference is not stored: the remote client is
  passed to `async_update` as the function `get_zone`, and a failing remote
  call is an `Except.error`.
* Python `/` on integers is exact (float) division; temperature values are
  embedded in `ℚ`, which represents every decimal the code can produce.
* `async_setup_entry` returns the single list handed to
  `async_add_entities` via `itertools.chain`; the zone collection is the
  iteration order of the fetched zones, whose keys (zone ids) are distinct.
-/

structure Description where
  name : String
  deriving Repr, DecidableEq

structure ZoneData where
  id : Nat
  batteryLevel : Option Int
  currentTemperature : Option Int
  humidity : Option Int
  deriving Repr, DecidableEq

structure Device where
  description : Description
  zone : ZoneData
  deriving Repr, DecidableEq

/-- `is_battery_operating_device`: `device['zone']['batteryLevel'] is not None`. -/
def is_battery_operating_device (device : Device) : Bool :=
  device.zone.batteryLevel.isSome

/-- `is_humidity_operating_device`: `device['zone']['humidity'] is not None`. -/
def is_humidity_operating_device (device : Device) : Bool :=
  device.zone.humidity.isSome

structure TechBatterySensor where
  _udid : String
  _id : Nat
  _unique_id : String
  _name : String
  _attr_native_value : Option Int
  deriving Repr, DecidableEq

def TechBatterySensor.update_properties (s : TechBatterySensor) (device : Device) :
    TechBatterySensor :=
  { s with
    _name := device.description.name
    _attr_native_value := device.zone.batteryLevel }

/-- `TechBatterySensor.__init__`: sets `_udid`, `_id`, `_unique_id`, then calls
`update_properties` which fills `_name` and `_attr_native_value`. -/
def TechBatterySensor.init (device : Device) (udid : String) : TechBatterySensor :=
  TechBatterySensor.update_properties
    { _udid := udid
      _id := device.zone.id
      _unique_id := udid ++ "_" ++ toString device.zone.id
      _name := ""
      _attr_native_value := none }
    device

def TechBatterySensor.unique_id (s : TechBatterySensor) : String :=
  s._unique_id ++ "_battery"

def TechBatterySensor.name (s : TechBatterySensor) : String :=
  s._name ++ " battery"

/-- `async_update`: `device = await self._api.get_zone(self._udid, self._id)`
followed by `self.update_properties(device)`; a raised exception propagates. -/
def TechBatterySensor.async_update {ε : Type} (s : TechBatterySensor)
    (get_zone : String → Nat → Except ε Device) : Except ε TechBatterySensor :=
  match get_zone s._udid s._id with
  | Except.error e => Except.error e
  | Except.ok device => Except.ok (s.update_properties device)

/-- The object state after a call to `async_update`: if `get_zone` raises, the
exception is thrown before any assignment, so the object keeps its fields. -/
def TechBatterySensor.async_update_state {ε : Type} (s : TechBatterySensor)
    (get_zone : String → Nat → Except ε Device) : TechBatterySensor :=
  match s.async_update get_zone with
  | Except.ok s2 => s2
  | Except.error _ => s

structure TechTemperatureSensor where
  _udid : String
  _id : Nat
  _unique_id : String
  _name : String
  _attr_native_value : Option ℚ
  deriving Repr, DecidableEq

def TechTemperatureSensor.update_properties (s : TechTemperatureSensor) (device : Device) :
    TechTemperatureSensor :=
  { s with
    _name := device.description.name
    _attr_native_value :=
      match device.zone.currentTemperature with
      | some t => some ((t : ℚ) / 10)
      | none => none }

def TechTemperatureSensor.init (device : Device) (udid : String) : TechTemperatureSensor :=
  TechTemperatureSensor.update_properties
    { _udid := udid
      _id := device.zone.id
      _unique_id := udid ++ "_" ++ toString device.zone.id
      _name := ""
      _attr_native_value := none }
    device

def TechTemperatureSensor.unique_id (s : TechTemperatureSensor) : String :=
  s._unique_id ++ "_temperature"

def TechTemperatureSensor.name (s : TechTemperatureSensor) : String :=
  s._name ++ " temperature"

def TechTemperatureSensor.async_update {ε : Type} (s : TechTemperatureSensor)
    (get_zone : String → Nat → Except ε Device) : Except ε TechTemperatureSensor :=
  match get_zone s._udid s._id with
  | Except.error e => Except.error e
  | Except.ok device => Except.ok (s.update_properties device)

def TechTemperatureSensor.async_update_state {ε : Type} (s : TechTemperatureSensor)
    (get_zone : String → Nat → Except ε Device) : TechTemperatureSensor :=
  match s.async_update get_zone with
  | Except.ok s2 => s2
  | Except.error _ => s

structure TechHumiditySensor where
  _udid : String
  _id : Nat
  _unique_id : String
  _name : String
  _attr_native_value : Option Int
  deriving Repr, DecidableEq

/-- Python tests `device["zone"]["humidity"] != 0`; `None != 0` is `True`
there, so the stored value is the raw field unless that field is `0`. -/
def TechHumiditySensor.update_properties (s : TechHumiditySensor) (device : Device) :
    TechHumiditySensor :=
  { s with
    _name := device.description.name
    _attr_native_value :=
      if device.zone.humidity ≠ some 0 then device.zone.humidity else none }

def TechHumiditySensor.init (device : Device) (udid : String) : TechHumiditySensor :=
  TechHumiditySensor.update_properties
    { _udid := udid
      _id := device.zone.id
      _unique_id := udid ++ "_" ++ toString device.zone.id
      _name := ""
      _attr_native_value := none }
    device

def TechHumiditySensor.unique_id (s : TechHumiditySensor) : String :=
  "climate_" ++ s._unique_id ++ "_humidity"

def TechHumiditySensor.name (s : TechHumiditySensor) : String :=
  s._name ++ " humidity"

def TechHumiditySensor.async_update {ε : Type} (s : TechHumiditySensor)
    (get_zone : String → Nat → Except ε Device) : Except ε TechHumiditySensor :=
  match get_zone s._udid s._id with
  | Except.error e => Except.error e
  | Except.ok device => Except.ok (s.update_properties device)

def TechHumiditySensor.async_update_state {ε : Type} (s : TechHumiditySensor)
    (get_zone : String → Nat → Except ε Device) : TechHumiditySensor :=
  match s.async_update get_zone with
  | Except.ok s2 => s2
  | Except.error _ => s

def map_to_battery_sensors (zones : List Device) (udid : String) : List TechBatterySensor :=
  (zones.filter is_battery_operating_device).map
    (fun device => TechBatterySensor.init device udid)

def map_to_temperature_sensors (zones : List Device) (udid : String) :
    List TechTemperatureSensor :=
  zones.map (fun device => TechTemperatureSensor.init device udid)

def map_to_humidity_sensors (zones : List Device) (udid : String) : List TechHumiditySensor :=
  (zones.filter is_humidity_operating_device).map
    (fun device => TechHumiditySensor.init device udid)

inductive SensorEntity where
  | battery : TechBatterySensor → SensorEntity
  | temperature : TechTemperatureSensor → SensorEntity
  | humidity : TechHumiditySensor → SensorEntity
  deriving Repr, DecidableEq

/-- `async_setup_entry` hands `itertools.chain(battery_devices,
temperature_sensors, humidity_sensors)` to one `async_add_entities` call;
this is the list it registers. -/
def async_setup_entry (zones : List Device) (udid : String) : List SensorEntity :=
  (map_to_battery_sensors zones udid).map SensorEntity.battery
    ++ (map_to_temperature_sensors zones udid).map SensorEntity.temperature
    ++ (map_to_humidity_sensors zones udid).map SensorEntity.humidity

def kindRank : SensorEntity → Nat
  | SensorEntity.battery _ => 0
  | SensorEntity.temperature _ => 1
  | SensorEntity.humidity _ => 2

def getBattery : SensorEntity → Option TechBatterySensor
  | SensorEntity.battery s => some s
  | _ => none

def getTemperature : SensorEntity → Option TechTemperatureSensor
  | SensorEntity.temperature s => some s
  | _ => none

def getHumidity : SensorEntity → Option TechHumiditySensor
  | SensorEntity.humidity s => some s
  | _ => none

/-! Concrete zone records used to instantiate theorems with hypotheses. -/

def exZone7 : Device :=
  { description := { name := "Kitchen" }
    zone := { id := 7, batteryLevel := some 80, currentTemperature := some 235,
              humidity := some 45 } }

def zoneHum0 : Device :=
  { description := { name := "Living" }
    zone := { id := 1, batteryLevel := none, currentTemperature := some 210,
              humidity := some 0 } }

def zoneAbsent : Device :=
  { description := { name := "Attic" }
    zone := { id := 2, batteryLevel := none, currentTemperature := none,
              humidity := none } }

/-! ## Claim theorems -/

/-- Claim C4: for every zone record, the Temperature entity's native value is
the raw `currentTemperature` divided by 10 when that reading is present
(raw 235 gives 23.5, witnessed on `exZone7`), and `none` when it is absent,
both at construction (`init`) and after every refresh (`update_properties`
applied to any prior state, which is what a successful `async_update` does). -/
theorem C4_temperature_value (s : TechTemperatureSensor) (device : Device) (udid : String) :
    (s.update_properties device)._attr_native_value
        = Option.map (fun t => (t : ℚ) / 10) device.zone.currentTemperature
    ∧ (TechTemperatureSensor.init device udid)._attr_native_value
        = Option.map (fun t => (t : ℚ) / 10) device.zone.currentTemperature
    ∧ (TechTemperatureSensor.init exZone7 udid)._attr_native_value = some 23.5
    ∧ (TechTemperatureSensor.init zoneAbsent udid)._attr_native_value = none := by
  refine ⟨?_, ?_, ?_, ?_⟩
  · cases h : device.zone.currentTemperature <;>
      simp [TechTemperatureSensor.update_properties, h]
  · cases h : device.zone.currentTemperature <;>
      simp [TechTemperatureSensor.init, TechTemperatureSensor.update_properties, h]
  · show some ((235 : ℚ) / 10) = some 23.5
    norm_num
  · rfl

/-- Claim C5: for every zone record whose raw humidity is present, the
Humidity entity's native value equals the raw percentage when it is non-zero
and is `none` when it is `0`, both at construction and after every refresh
(a successful `async_update` applies `update_properties` to the prior state). -/
theorem C5_humidity_value (s : TechHumiditySensor) (device : Device) (udid : String) (h : Int)
    (hh : device.zone.humidity = some h) :
    (s.update_properties device)._attr_native_value = (if h = 0 then none else some h)
    ∧ (TechHumiditySensor.init device udid)._attr_native_value
        = (if h = 0 then none else some h) := by
  constructor
  · by_cases h0 : h = 0 <;>
      simp [TechHumiditySensor.update_properties, hh, h0]
  · by_cases h0 : h = 0 <;>
      simp [TechHumiditySensor.init, TechHumiditySensor.update_properties, hh, h0]

/-- Witness for C5: concrete raw humidity 45 displays as 45, and concrete raw
humidity 0 displays as unknown. -/
theorem C5_humidity_value_witness :
    (TechHumiditySensor.init exZone7 "u")._attr_native_value = some 45
    ∧ (TechHumiditySensor.init zoneHum0 "u")._attr_native_value = none := by
  constructor
  · exact ((C5_humidity_value (TechHumiditySensor.init exZone7 "u") exZone7 "u" 45 rfl).2).trans
      (by decide)
  · exact ((C5_humidity_value (TechHumiditySensor.init zoneHum0 "u") zoneHum0 "u" 0 rfl).2).trans
      (by decide)

/-- Claim C6: for every module udid and zone record, the unique ids are
`udid_zoneId_battery`, `udid_zoneId_temperature` and
`climate_udid_zoneId_humidity` (the `climate_` prefix only for humidity);
in particular module `abc123`, zone 7 gives the three quoted strings. -/
theorem C6_unique_id_format (device : Device) (udid : String) :
    (TechBatterySensor.init device udid).unique_id
        = udid ++ "_" ++ toString device.zone.id ++ "_battery"
    ∧ (TechTemperatureSensor.init device udid).unique_id
        = udid ++ "_" ++ toString device.zone.id ++ "_temperature"
    ∧ (TechHumiditySensor.init device udid).unique_id
        = "climate_" ++ udid ++ "_" ++ toString device.zone.id ++ "_humidity"
    ∧ (TechBatterySensor.init exZone7 "abc123").unique_id = "abc123_7_battery"
    ∧ (TechTemperatureSensor.init exZone7 "abc123").unique_id = "abc123_7_temperature"
    ∧ (TechHumiditySensor.init exZone7 "abc123").unique_id = "climate_abc123_7_humidity" := by
  refine ⟨?_, ?_, ?_, by decide, by decide, by decide⟩
  · simp [TechBatterySensor.init, TechBatterySensor.update_properties,
      TechBatterySensor.unique_id]
  · simp [TechTemperatureSensor.init, TechTemperatureSensor.update_properties,
      TechTemperatureSensor.unique_id]
  · simp [TechHumiditySensor.init, TechHumiditySensor.update_properties,
      TechHumiditySensor.unique_id, String.append_assoc]

def failGZ : String → Nat → Except String Device := fun _ _ => Except.error "boom"

/-- Claim C2: for every entity of any of the three kinds, if `get_zone`
raises inside `async_update`, the failure propagates to the caller
unmodified, and the entity's stored fields (in particular `_name` and
`_attr_native_value`) are unchanged. -/
theorem C2_refresh_error_propagates {ε : Type} (gz : String → Nat → Except ε Device) (e : ε)
    (b : TechBatterySensor) (t : TechTemperatureSensor) (hu : TechHumiditySensor) :
    (gz b._udid b._id = Except.error e →
        b.async_update gz = Except.error e ∧ b.async_update_state gz = b)
    ∧ (gz t._udid t._id = Except.error e →
        t.async_update gz = Except.error e ∧ t.async_update_state gz = t)
    ∧ (gz hu._udid hu._id = Except.error e →
        hu.async_update gz = Except.error e ∧ hu.async_update_state gz = hu) := by
  refine ⟨fun h => ?_, fun h => ?_, fun h => ?_⟩
  · have h1 : b.async_update gz = Except.error e := by
      simp [TechBatterySensor.async_update, h]
    exact ⟨h1, by simp [TechBatterySensor.async_update_state, h1]⟩
  · have h1 : t.async_update gz = Except.error e := by
      simp [TechTemperatureSensor.async_update, h]
    exact ⟨h1, by simp [TechTemperatureSensor.async_update_state, h1]⟩
  · have h1 : hu.async_update gz = Except.error e := by
      simp [TechHumiditySensor.async_update, h]
    exact ⟨h1, by simp [TechHumiditySensor.async_update_state, h1]⟩

/-- Witness for C2: a remote client that always raises makes the refresh of
each concretely constructed entity propagate the same error. -/
theorem C2_refresh_error_propagates_witness :
    (TechBatterySensor.init exZone7 "u").async_update failGZ = Except.error "boom"
    ∧ (TechTemperatureSensor.init exZone7 "u").async_update failGZ = Except.error "boom"
    ∧ (TechHumiditySensor.init exZone7 "u").async_update failGZ = Except.error "boom" := by
  have h := C2_refresh_error_propagates failGZ "boom"
    (TechBatterySensor.init exZone7 "u") (TechTemperatureSensor.init exZone7 "u")
    (TechHumiditySensor.init exZone7 "u")
  exact ⟨(h.1 rfl).1, (h.2.1 rfl).1, (h.2.2 rfl).1⟩

/-- Claim C3: after a refresh that fetches a record `d`, the displayed name
and native value are recomputed from `d` by the same derivation as
construction, while the identity fields `_udid`, `_id` and the unique id are
unchanged from construction; `update_properties` (the only mutator) never
touches them. -/
theorem C3_refresh_recomputes_value_keeps_identity {ε : Type}
    (gz : String → Nat → Except ε Device) (d : Device)
    (b : TechBatterySensor) (t : TechTemperatureSensor) (hu : TechHumiditySensor) :
    ((gz b._udid b._id = Except.ok d →
        b.async_update gz = Except.ok (b.update_properties d))
      ∧ (b.update_properties d).name = (TechBatterySensor.init d b._udid).name
      ∧ (b.update_properties d)._attr_native_value
          = (TechBatterySensor.init d b._udid)._attr_native_value
      ∧ (b.update_properties d)._udid = b._udid
      ∧ (b.update_properties d)._id = b._id
      ∧ (b.update_properties d).unique_id = b.unique_id)
    ∧ ((gz t._udid t._id = Except.ok d →
        t.async_update gz = Except.ok (t.update_properties d))
      ∧ (t.update_properties d).name = (TechTemperatureSensor.init d t._udid).name
      ∧ (t.update_properties d)._attr_native_value
          = (TechTemperatureSensor.init d t._udid)._attr_native_value
      ∧ (t.update_properties d)._udid = t._udid
      ∧ (t.update_properties d)._id = t._id
      ∧ (t.update_properties d).unique_id = t.unique_id)
    ∧ ((gz hu._udid hu._id = Except.ok d →
        hu.async_update gz = Except.ok (hu.update_properties d))
      ∧ (hu.update_properties d).name = (TechHumiditySensor.init d hu._udid).name
      ∧ (hu.update_properties d)._attr_native_value
          = (TechHumiditySensor.init d hu._udid)._attr_native_value
      ∧ (hu.update_properties d)._udid = hu._udid
      ∧ (hu.update_properties d)._id = hu._id
      ∧ (hu.update_properties d).unique_id = hu.unique_id) := by
  refine ⟨⟨fun h => ?_, ?_, ?_, rfl, rfl, rfl⟩, ⟨fun h => ?_, ?_, ?_, rfl, rfl, rfl⟩,
    ⟨fun h => ?_, ?_, ?_, rfl, rfl, rfl⟩⟩
  · simp [TechBatterySensor.async_update, h]
  · rfl
  · rfl
  · simp [TechTemperatureSensor.async_update, h]
  · rfl
  · rfl
  · simp [TechHumiditySensor.async_update, h]
  · rfl
  · rfl

def okGZ : String → Nat → Except String Device := fun _ _ => Except.ok zoneHum0

/-- Witness for C3: refreshing concrete entities through a remote client that
returns the `zoneHum0` record succeeds with the recomputed state. -/
theorem C3_refresh_recomputes_value_keeps_identity_witness :
    (TechBatterySensor.init exZone7 "u").async_update okGZ
        = Except.ok ((TechBatterySensor.init exZone7 "u").update_properties zoneHum0)
    ∧ (TechTemperatureSensor.init exZone7 "u").async_update okGZ
        = Except.ok ((TechTemperatureSensor.init exZone7 "u").update_properties zoneHum0)
    ∧ (TechHumiditySensor.init exZone7 "u").async_update okGZ
        = Except.ok ((TechHumiditySensor.init exZone7 "u").update_properties zoneHum0) := by
  have h := C3_refresh_recomputes_value_keeps_identity okGZ zoneHum0
    (TechBatterySensor.init exZone7 "u") (TechTemperatureSensor.init exZone7 "u")
    (TechHumiditySensor.init exZone7 "u")
  exact ⟨h.1.1 rfl, h.2.1.1 rfl, h.2.2.1 rfl⟩

/-- Claim C10: `update_properties` is idempotent and its result does not
depend on the prior mutable state: two entities of the same kind sharing the
construction identity (`_udid`, `_id`, `_unique_id`) end up equal after
updating with the same record, and updating twice equals updating once. -/
theorem C10_update_properties_idempotent (d : Device)
    (b1 b2 : TechBatterySensor) (t1 t2 : TechTemperatureSensor)
    (hu1 hu2 : TechHumiditySensor) :
    ((b1._udid = b2._udid → b1._id = b2._id → b1._unique_id = b2._unique_id →
        b1.update_properties d = b2.update_properties d)
      ∧ (b1.update_properties d).update_properties d = b1.update_properties d)
    ∧ ((t1._udid = t2._udid → t1._id = t2._id → t1._unique_id = t2._unique_id →
        t1.update_properties d = t2.update_properties d)
      ∧ (t1.update_properties d).update_properties d = t1.update_properties d)
    ∧ ((hu1._udid = hu2._udid → hu1._id = hu2._id → hu1._unique_id = hu2._unique_id →
        hu1.update_properties d = hu2.update_properties d)
      ∧ (hu1.update_properties d).update_properties d = hu1.update_properties d) := by
  refine ⟨⟨fun h1 h2 h3 => ?_, rfl⟩, ⟨fun h1 h2 h3 => ?_, rfl⟩, ⟨fun h1 h2 h3 => ?_, rfl⟩⟩
  · cases b1; cases b2
    simp_all [TechBatterySensor.update_properties]
  · cases t1; cases t2
    simp_all [TechTemperatureSensor.update_properties]
  · cases hu1; cases hu2
    simp_all [TechHumiditySensor.update_properties]

/-- Witness for C10: two concretely constructed entities sharing identity but
holding different prior names and values coincide after one update. -/
theorem C10_update_properties_idempotent_witness :
    (TechBatterySensor.init exZone7 "u").update_properties zoneHum0
        = ((TechBatterySensor.init exZone7 "u").update_properties zoneAbsent).update_properties
            zoneHum0
    ∧ (TechTemperatureSensor.init exZone7 "u").update_properties zoneHum0
        = ((TechTemperatureSensor.init exZone7 "u").update_properties zoneAbsent).update_properties
            zoneHum0
    ∧ (TechHumiditySensor.init exZone7 "u").update_properties zoneHum0
        = ((TechHumiditySensor.init exZone7 "u").update_properties zoneAbsent).update_properties
            zoneHum0 := by
  have h := C10_update_properties_idempotent zoneHum0
    (TechBatterySensor.init exZone7 "u")
    ((TechBatterySensor.init exZone7 "u").update_properties zoneAbsent)
    (TechTemperatureSensor.init exZone7 "u")
    ((TechTemperatureSensor.init exZone7 "u").update_properties zoneAbsent)
    (TechHumiditySensor.init exZone7 "u")
    ((TechHumiditySensor.init exZone7 "u").update_properties zoneAbsent)
  exact ⟨h.1.1 rfl rfl rfl, h.2.1.1 rfl rfl rfl, h.2.2.1 rfl rfl rfl⟩

/-- Counting helper: in a zone list with pairwise-distinct zone ids (the zone
collection is keyed by id), the zones sharing `d`'s id that satisfy `p` number
one when `p d` holds and zero otherwise. -/
theorem countP_id_of_nodup (p : Device → Bool) :
    ∀ (zones : List Device), (zones.map (fun z => z.zone.id)).Nodup →
      ∀ d ∈ zones,
        zones.countP (fun z => z.zone.id == d.zone.id && p z) = if p d then 1 else 0 := by
  intro zones
  induction zones with
  | nil => intro _ d hd; cases hd
  | cons z zs ih =>
    intro hnd d hd
    rw [List.map_cons, List.nodup_cons] at hnd
    rcases List.mem_cons.mp hd with rfl | hmem
    · have htail : zs.countP (fun w => w.zone.id == d.zone.id && p w) = 0 := by
        rw [List.countP_eq_zero]
        intro w hw
        simp only [Bool.and_eq_true, beq_iff_eq, not_and]
        intro hid _
        exact hnd.1 (hid ▸ List.mem_map_of_mem (fun v => v.zone.id) hw)
      rw [List.countP_cons, htail]
      simp
    · have hne : z.zone.id ≠ d.zone.id := by
        intro he
        exact hnd.1 (he ▸ List.mem_map_of_mem (fun v => v.zone.id) hmem)
      rw [List.countP_cons, ih hnd.2 d hmem]
      simp [hne]

/-- Claim C7: in a zone list with distinct zone ids, a zone receives exactly
one Battery entity when its battery level is present and none when it is
absent. -/
theorem C7_battery_entity_iff_present (zones : List Device) (udid : String) (d : Device)
    (hnd : (zones.map (fun z => z.zone.id)).Nodup) (hd : d ∈ zones) :
    (map_to_battery_sensors zones udid).countP (fun s => s._id == d.zone.id)
      = if d.zone.batteryLevel.isSome then 1 else 0 := by
  unfold map_to_battery_sensors
  rw [List.countP_map, List.countP_filter]
  have hc : (fun z => ((fun s => s._id == d.zone.id) ∘
      fun device => TechBatterySensor.init device udid) z && is_battery_operating_device z)
      = fun z => z.zone.id == d.zone.id && is_battery_operating_device z := by
    funext z
    rfl
  rw [hc, countP_id_of_nodup is_battery_operating_device zones hnd d hd]
  rfl

/-- Witness for C7: in the concrete list `[exZone7, zoneAbsent]`, the zone
with battery level 80 gets one Battery entity and the batteryless zone none. -/
theorem C7_battery_entity_iff_present_witness :
    (map_to_battery_sensors [exZone7, zoneAbsent] "u").countP (fun s => s._id == 7) = 1
    ∧ (map_to_battery_sensors [exZone7, zoneAbsent] "u").countP (fun s => s._id == 2) = 0 := by
  constructor
  · exact (C7_battery_entity_iff_present [exZone7, zoneAbsent] "u" exZone7
      (by decide) (by simp)).trans (by decide)
  · exact (C7_battery_entity_iff_present [exZone7, zoneAbsent] "u" zoneAbsent
      (by decide) (by simp)).trans (by decide)

/-- Claim C8: in a zone list with distinct zone ids, every zone receives
exactly one Temperature entity, whatever fields it has. -/
theorem C8_temperature_entity_always (zones : List Device) (udid : String) (d : Device)
    (hnd : (zones.map (fun z => z.zone.id)).Nodup) (hd : d ∈ zones) :
    (map_to_temperature_sensors zones udid).countP (fun s => s._id == d.zone.id) = 1 := by
  unfold map_to_temperature_sensors
  rw [List.countP_map]
  have hc : ((fun s => s._id == d.zone.id) ∘ fun device => TechTemperatureSensor.init device udid)
      = fun z => z.zone.id == d.zone.id && (fun _ => true) z := by
    funext z
    simp [TechTemperatureSensor.init, TechTemperatureSensor.update_properties]
  rw [hc, countP_id_of_nodup (fun _ => true) zones hnd d hd]
  rfl

/-- Witness for C8: the all-fields-absent zone still gets its Temperature
entity in the concrete list `[exZone7, zoneAbsent]`. -/
theorem C8_temperature_entity_always_witness :
    (map_to_temperature_sensors [exZone7, zoneAbsent] "u").countP (fun s => s._id == 2) = 1 :=
  C8_temperature_entity_always [exZone7, zoneAbsent] "u" zoneAbsent (by decide) (by simp)

/-- Counterexample to claim C1 as stated: the classifier
`is_humidity_operating_device` only tests presence (`is not None`), so the
zone `zoneHum0`, whose humidity equals 0, still receives a Humidity entity —
the claim says it should receive none. -/
theorem C1_humidity_zero_zone_gets_entity :
    zoneHum0.zone.humidity = some 0
    ∧ (map_to_humidity_sensors [zoneHum0] "u").length = 1 := by
  constructor
  · rfl
  · rfl

/-- Claim C1 as amended: in a zone list with distinct zone ids, a zone
receives exactly one Humidity entity when its humidity value is present
(non-null) — including when it equals 0 — and none when it is absent. -/
theorem C1_humidity_entity_iff_nonnull (zones : List Device) (udid : String) (d : Device)
    (hnd : (zones.map (fun z => z.zone.id)).Nodup) (hd : d ∈ zones) :
    (map_to_humidity_sensors zones udid).countP (fun s => s._id == d.zone.id)
      = if d.zone.humidity.isSome then 1 else 0 := by
  unfold map_to_humidity_sensors
  rw [List.countP_map, List.countP_filter]
  have hc : (fun z => ((fun s => s._id == d.zone.id) ∘
      fun device => TechHumiditySensor.init device udid) z && is_humidity_operating_device z)
      = fun z => z.zone.id == d.zone.id && is_humidity_operating_device z := by
    funext z
    rfl
  rw [hc, countP_id_of_nodup is_humidity_operating_device zones hnd d hd]
  rfl

/-- Witness for the amended C1 on the list `[exZone7, zoneHum0, zoneAbsent]`:
humidity 45 gives one entity, humidity 0 still gives one, absent humidity
gives none. -/
theorem C1_humidity_entity_iff_nonnull_witness :
    (map_to_humidity_sensors [exZone7, zoneHum0, zoneAbsent] "u").countP
        (fun s => s._id == 7) = 1
    ∧ (map_to_humidity_sensors [exZone7, zoneHum0, zoneAbsent] "u").countP
        (fun s => s._id == 1) = 1
    ∧ (map_to_humidity_sensors [exZone7, zoneHum0, zoneAbsent] "u").countP
        (fun s => s._id == 2) = 0 := by
  refine ⟨?_, ?_, ?_⟩
  · exact (C1_humidity_entity_iff_nonnull [exZone7, zoneHum0, zoneAbsent] "u" exZone7
      (by decide) (by simp)).trans (by decide)
  · exact (C1_humidity_entity_iff_nonnull [exZone7, zoneHum0, zoneAbsent] "u" zoneHum0
      (by decide) (by simp)).trans (by decide)
  · exact (C1_humidity_entity_iff_nonnull [exZone7, zoneHum0, zoneAbsent] "u" zoneAbsent
      (by decide) (by simp)).trans (by decide)

/-- A list whose elements all stand in relation `r` to each other pairwise. -/
theorem pairwise_of_total {α : Type} (r : α → α → Prop) (h : ∀ a b, r a b) :
    ∀ l : List α, l.Pairwise r := by
  intro l
  induction l with
  | nil => exact List.Pairwise.nil
  | cons a l ih => exact List.Pairwise.cons (fun b _ => h a b) ih

/-- Helper: a list of entities all of the same kind rank is rank-sorted. -/
theorem pairwise_rank_of_const (c : Nat) :
    ∀ l : List SensorEntity, (∀ x ∈ l, kindRank x = c) →
      l.Pairwise (fun a b => kindRank a ≤ kindRank b) := by
  intro l
  induction l with
  | nil => intro _; exact List.Pairwise.nil
  | cons a l ih =>
    intro h
    refine List.Pairwise.cons (fun b hb => ?_) (ih fun x hx => h x (List.mem_cons_of_mem a hx))
    rw [h a (List.mem_cons_self a l), h b (List.mem_cons_of_mem a hb)]

theorem filterMap_of_none {α β : Type} (l : List α) :
    l.filterMap (fun _ => (none : Option β)) = [] :=
  List.filterMap_eq_nil_iff.mpr (fun _ _ => rfl)

theorem kindRank_le_two (x : SensorEntity) : kindRank x ≤ 2 := by
  cases x <;> simp [kindRank]

/-- Claim C9: setup registers all entities in one list (the single
`async_add_entities` call), in which every Battery entity precedes every
Temperature entity, which precedes every Humidity entity (kind ranks are
pairwise nondecreasing), and each kind's entities are exactly those of the
corresponding `map_to_*` mapping, which preserves zone iteration order. -/
theorem C9_setup_single_call_ordered (zones : List Device) (udid : String) :
    (async_setup_entry zones udid).filterMap getBattery = map_to_battery_sensors zones udid
    ∧ (async_setup_entry zones udid).filterMap getTemperature
        = map_to_temperature_sensors zones udid
    ∧ (async_setup_entry zones udid).filterMap getHumidity = map_to_humidity_sensors zones udid
    ∧ (async_setup_entry zones udid).Pairwise (fun a b => kindRank a ≤ kindRank b) := by
  have hA : ∀ x ∈ (map_to_battery_sensors zones udid).map SensorEntity.battery,
      kindRank x = 0 := by
    intro x hx
    rcases List.mem_map.mp hx with ⟨s, _, rfl⟩
    rfl
  have hB : ∀ x ∈ (map_to_temperature_sensors zones udid).map SensorEntity.temperature,
      kindRank x = 1 := by
    intro x hx
    rcases List.mem_map.mp hx with ⟨s, _, rfl⟩
    rfl
  have hC : ∀ x ∈ (map_to_humidity_sensors zones udid).map SensorEntity.humidity,
      kindRank x = 2 := by
    intro x hx
    rcases List.mem_map.mp hx with ⟨s, _, rfl⟩
    rfl
  refine ⟨?_, ?_, ?_, ?_⟩
  · simp [async_setup_entry, List.filterMap_map, Function.comp_def, getBattery,
      filterMap_of_none]
  · simp [async_setup_entry, List.filterMap_map, Function.comp_def, getTemperature,
      filterMap_of_none]
  · simp [async_setup_entry, List.filterMap_map, Function.comp_def, getHumidity,
      filterMap_of_none]
  · unfold async_setup_entry
    rw [List.pairwise_append]
    refine ⟨?_, pairwise_rank_of_const 2 _ hC, ?_⟩
    · rw [List.pairwise_append]
      refine ⟨pairwise_rank_of_const 0 _ hA, pairwise_rank_of_const 1 _ hB, ?_⟩
      intro a ha b hb
      rw [hA a ha]
      exact Nat.zero_le _
    · intro a _ b hb
      rw [hC b hb]
      exact kindRank_le_two a
